import Mathlib

/-!
Verification of the OG-image generation script (`scripts/generate-og-image.py`)
of the kanban-todos repository, as a shallow embedding in Lean 4.

The script is a linear sequence of drawing operations on a 1200 x 630 RGB
canvas: a vertical gradient fill, a dot overlay, an icon made of rounded
rectangles, centered text (title, tagline, four badges), and a final save to a
hard-coded path.  We embed the canvas as a pixel function together with its
dimensions, each drawing call as a function on canvases, the behavior that the
imaging library supplies (shape rasterization, text measurement and glyph
masks, which font files load, whether the save succeeds) as explicit
parameters, and the run of the whole script as a pure function of those
parameters producing either an error or the list of observable events
(the file save and the success message, in order).
-/

namespace OG

/-- Canvas width in pixels (`width = 1200`). -/
def width : ℕ := 1200

/-- Canvas height in pixels (`height = 630`). -/
def height : ℕ := 630

/-! ### Gradient interpolation (script lines 12-17)

Each channel is computed by `int(start + (end - start) * y / height)`.
Python evaluates `(end - start) * y / height` in floating point; for these
constants the value either is an exact integer (then the float quotient is
exact) or lies at distance at least `1/630` from every integer (far above the
rounding error), so Python's `int(...)` (truncation, here of a positive value)
agrees with the floor of the exact rational value, which is what we define. -/

/-- Red channel of the gradient row `y`: `int(139 + (109 - 139) * y / height)`. -/
def gradR (y : ℕ) : ℤ := ⌊(139 : ℚ) + (109 - 139) * y / (height : ℚ)⌋

/-- Green channel of the gradient row `y`: `int(92 + (40 - 92) * y / height)`. -/
def gradG (y : ℕ) : ℤ := ⌊(92 : ℚ) + (40 - 92) * y / (height : ℚ)⌋

/-- Blue channel of the gradient row `y`: `int(246 + (217 - 246) * y / height)`. -/
def gradB (y : ℕ) : ℤ := ⌊(246 : ℚ) + (217 - 246) * y / (height : ℚ)⌋

/-- An RGB color, one 8-bit channel per component (stored as integers). -/
structure Color where
  r : ℤ
  g : ℤ
  b : ℤ
deriving DecidableEq, Repr

/-- The interpolated color of gradient row `y` (`fill=(r, g, b)` on line 17). -/
def gradColor (y : ℕ) : Color := ⟨gradR y, gradG y, gradB y⟩

/-! ### Canvas and drawing operations

`Image.new('RGB', (width, height))` creates an RGB pixel buffer, initially
black.  The drawing layer converts every fill argument to an ink of the image
mode: in RGB mode a fourth (alpha) component of a fill tuple is dropped, and
pixel writes are opaque (the new pixel value is the ink, independent of the
old value).  Writes outside the buffer are clipped.  We embed the buffer as a
total function guarded by the bounds check, so a clipped write leaves the
function unchanged outside the canvas. -/

/-- A fill argument as written in the script: RGB plus an optional fourth
(alpha) component, e.g. `(255, 255, 255, 13)` or `'white' = (255, 255, 255)`. -/
structure Fill where
  r : ℤ
  g : ℤ
  b : ℤ
  a : Option ℤ
deriving DecidableEq, Repr

/-- The ink an RGB-mode image derives from a fill: the alpha component, when
present, is ignored. -/
def inkOf (f : Fill) : Color := ⟨f.r, f.g, f.b⟩

/-- The in-memory canvas: fixed dimensions plus the pixel buffer. -/
structure Canvas where
  w : ℕ
  h : ℕ
  pix : ℕ → ℕ → Color

/-- `Image.new('RGB', (w, h))`: all pixels start black. -/
def blank (w h : ℕ) : Canvas := ⟨w, h, fun _ _ => ⟨0, 0, 0⟩⟩

/-- The primitive pixel write shared by all drawing operations: set every
pixel satisfying `cond` to `col`, clipped to the canvas bounds. -/
def setIf (c : Canvas) (cond : ℕ → ℕ → Bool) (col : Color) : Canvas :=
  ⟨c.w, c.h, fun x y =>
    if cond x y && decide (x < c.w) && decide (y < c.h) then col else c.pix x y⟩

/-- `draw.line([(x0, y), (x1, y)], fill=col)` for a horizontal, one-pixel-wide
line: both endpoints are included, then clipped to the canvas. -/
def drawHLine (c : Canvas) (x0 x1 y : ℕ) (col : Color) : Canvas :=
  setIf c (fun px py => decide (x0 ≤ px) && decide (px ≤ x1) && decide (py = y)) col

/-! ### Fonts (script lines 55-68)

Three `ImageFont.truetype` calls per tier inside nested `try`/`except`: an
exception from any call of a tier abandons that whole tier (any fonts of it
already assigned are overwritten by the next tier), so the resolved triple is
always homogeneous.  Which font files load is outside the program: it is the
parameter `loads`. -/

/-- The fallback tier a resolved font handle came from. -/
inductive FontTier where
  | primary
  | secondary
  | builtinDefault
deriving DecidableEq, Repr

/-- A resolved font handle: its tier, and for truetype fonts the file path
and pixel size it was loaded with (`none` for the built-in default font). -/
structure Font where
  tier : FontTier
  path : Option String
  size : Option ℕ
deriving DecidableEq, Repr

/-- Primary path of the bold font (title and badges). -/
def primBoldPath : String := "/System/Library/Fonts/Supplemental/Arial Bold.ttf"

/-- Primary path of the regular font (tagline). -/
def primRegularPath : String := "/System/Library/Fonts/Supplemental/Arial.ttf"

/-- Secondary path of the bold font (title and badges). -/
def secBoldPath : String := "/Library/Fonts/Arial Bold.ttf"

/-- Secondary path of the regular font (tagline). -/
def secRegularPath : String := "/Library/Fonts/Arial.ttf"

/-- The three font handles the script resolves. -/
structure Fonts where
  title : Font
  tagline : Font
  badge : Font
deriving DecidableEq, Repr

/-- The triple resolved when all three primary loads succeed. -/
def primaryFonts : Fonts :=
  ⟨⟨.primary, some primBoldPath, some 72⟩,
   ⟨.primary, some primRegularPath, some 32⟩,
   ⟨.primary, some primBoldPath, some 18⟩⟩

/-- The triple resolved when a primary load fails and all three secondary
loads succeed. -/
def secondaryFonts : Fonts :=
  ⟨⟨.secondary, some secBoldPath, some 72⟩,
   ⟨.secondary, some secRegularPath, some 32⟩,
   ⟨.secondary, some secBoldPath, some 18⟩⟩

/-- The triple of `ImageFont.load_default()` handles. -/
def defaultFonts : Fonts :=
  ⟨⟨.builtinDefault, none, none⟩,
   ⟨.builtinDefault, none, none⟩,
   ⟨.builtinDefault, none, none⟩⟩

/-- All three `truetype` calls of the outer `try` succeed. -/
def primTierLoads (loads : String → ℕ → Bool) : Bool :=
  loads primBoldPath 72 && loads primRegularPath 32 && loads primBoldPath 18

/-- All three `truetype` calls of the inner `try` succeed. -/
def secTierLoads (loads : String → ℕ → Bool) : Bool :=
  loads secBoldPath 72 && loads secRegularPath 32 && loads secBoldPath 18

/-- The `try`/`except` chain of lines 56-68: a failure of any load of a tier
raises, discarding the partial assignments of that tier and moving all three
fonts to the next tier; `load_default()` never fails. -/
def resolveFonts (loads : String → ℕ → Bool) : Fonts :=
  if primTierLoads loads then primaryFonts
  else if secTierLoads loads then secondaryFonts
  else defaultFonts

/-! ### Library-supplied rasterization and measurement

The exact pixel sets of ellipses, rounded rectangles and glyphs, and the
measured text bounding boxes, are the imaging library's business (and for
text they depend on the font files).  We keep them abstract: a `Lib` value
supplies them, and each drawing operation paints its region with the opaque
ink derived from its fill. -/

/-- A text bounding box as returned by `draw.textbbox((0, 0), text, font)`:
`(x0, y0, x1, y1)`. -/
structure BBox where
  x0 : ℚ
  y0 : ℚ
  x1 : ℚ
  y1 : ℚ

/-- The behavior the imaging library and the fonts supply: which pixels an
ellipse or rounded rectangle covers, which pixels the glyphs of a text drawn
at a position cover, and the measured bounding box of a text. -/
structure Lib where
  ellipsePix : ℤ → ℤ → ℤ → ℤ → ℕ → ℕ → Bool
  rrectPix : ℤ → ℤ → ℤ → ℤ → ℤ → ℕ → ℕ → Bool
  textPix : String → Font → ℚ × ℚ → ℕ → ℕ → Bool
  textBBox : String → Font → BBox

/-- `draw.ellipse([x0, y0, x1, y1], fill=f)`. -/
def drawEllipse (lib : Lib) (c : Canvas) (x0 y0 x1 y1 : ℤ) (f : Fill) : Canvas :=
  setIf c (lib.ellipsePix x0 y0 x1 y1) (inkOf f)

/-- `draw.rounded_rectangle([x0, y0, x1, y1], radius=rad, fill=f)`. -/
def drawRRect (lib : Lib) (c : Canvas) (x0 y0 x1 y1 rad : ℤ) (f : Fill) : Canvas :=
  setIf c (lib.rrectPix x0 y0 x1 y1 rad) (inkOf f)

/-- `draw.text(pos, text, fill=f, font=font)`. -/
def drawTextOp (lib : Lib) (c : Canvas) (pos : ℚ × ℚ) (text : String)
    (font : Font) (f : Fill) : Canvas :=
  setIf c (lib.textPix text font pos) (inkOf f)

/-- Measured width of a text: `bbox[2] - bbox[0]` (lines 73, 79, 103). -/
def textWidthOf (lib : Lib) (text : String) (font : Font) : ℚ :=
  (lib.textBBox text font).x1 - (lib.textBBox text font).x0

/-! ### The drawing phases of the script -/

/-- One iteration of the gradient loop (lines 12-17): row `y` is drawn as a
line from `(0, y)` to `(width, y)`. -/
def gradStep (c : Canvas) (y : ℕ) : Canvas := drawHLine c 0 width y (gradColor y)

/-- The gradient loop: `for y in range(height)`. -/
def gradientFill (c : Canvas) : Canvas := (List.range height).foldl gradStep c

/-- `range(a, b, s)` of Python for a positive step `s`. -/
def pyRange (a b s : ℕ) : List ℕ := List.range' a ((b - a + s - 1) / s) s

/-- The dot-pattern overlay (lines 20-22): a 2 x 2 ellipse around every point
of a 40-pixel grid, fill `(255, 255, 255, 13)`. -/
def dotOverlay (lib : Lib) (c : Canvas) : Canvas :=
  (pyRange 20 width 40).foldl (fun c x =>
    (pyRange 20 height 40).foldl (fun c y =>
      drawEllipse lib c (x - 1) (y - 1) (x + 1) (y + 1) ⟨255, 255, 255, some 13⟩) c) c

/-- `icon_x` (line 25). -/
def iconX : ℤ := 440

/-- `icon_y` (line 25). -/
def iconY : ℤ := 140

/-- `icon_size` (line 26). -/
def iconSize : ℤ := 120

/-- The icon background and the three cascade steps (lines 27-53). -/
def drawIcon (lib : Lib) (c : Canvas) : Canvas :=
  let c := drawRRect lib c iconX iconY (iconX + iconSize) (iconY + iconSize) 24
    ⟨255, 255, 255, some 38⟩
  let c := drawRRect lib c (iconX + 20) (iconY + 20) (iconX + 44) (iconY + 44) 4
    ⟨255, 255, 255, some 242⟩
  let c := drawRRect lib c (iconX + 48) (iconY + 48) (iconX + 78) (iconY + 72) 4
    ⟨255, 255, 255, some 217⟩
  drawRRect lib c (iconX + 70) (iconY + 72) (iconX + 104) (iconY + 96) 4
    ⟨255, 255, 255, some 191⟩

/-- `title_text` (line 71). -/
def titleText : String := "Cascade"

/-- `tagline_text` (line 77). -/
def taglineText : String := "Privacy-First Task Management"

/-- The x-position the title is drawn at: `width/2 - title_width/2` (line 74). -/
def titleX (tw : ℚ) : ℚ := (width : ℚ) / 2 - tw / 2

/-- The x-position the tagline is drawn at: `width/2 - tagline_width/2`
(line 80). -/
def taglineX (tw : ℚ) : ℚ := (width : ℚ) / 2 - tw / 2

/-- The x-position a badge label is drawn at:
`badge["x"] + 70 - text_width/2` (line 104). -/
def badgeTextX (bx : ℤ) (tw : ℚ) : ℚ := (bx : ℚ) + 70 - tw / 2

/-- Draw the app name (lines 70-74), measured then centered. -/
def drawTitle (lib : Lib) (font : Font) (c : Canvas) : Canvas :=
  drawTextOp lib c (titleX (textWidthOf lib titleText font), 280) titleText font
    ⟨255, 255, 255, none⟩

/-- Draw the tagline (lines 76-80), fill `(255, 255, 255, 230)`. -/
def drawTagline (lib : Lib) (font : Font) (c : Canvas) : Canvas :=
  drawTextOp lib c (taglineX (textWidthOf lib taglineText font), 360) taglineText font
    ⟨255, 255, 255, some 230⟩

/-- A feature badge: label text and x-offset (lines 83-88). -/
structure Badge where
  text : String
  x : ℤ
deriving DecidableEq, Repr

/-- The four feature badges. -/
def badges : List Badge :=
  [⟨"🔒 Private", 300⟩, ⟨"📋 Kanban", 460⟩, ⟨"♿ A11y", 620⟩, ⟨"⚡ Fast", 780⟩]

/-- `badge_y` (line 90). -/
def badgeY : ℤ := 450

/-- `badge_height` (line 91). -/
def badgeHeight : ℤ := 48

/-- One iteration of the badge loop (lines 93-104): background rectangle of
width 140, then the label centered at `badge["x"] + 70`. -/
def drawBadge (lib : Lib) (font : Font) (c : Canvas) (b : Badge) : Canvas :=
  let c := drawRRect lib c b.x badgeY (b.x + 140) (badgeY + badgeHeight) 24
    ⟨255, 255, 255, some 51⟩
  drawTextOp lib c (badgeTextX b.x (textWidthOf lib b.text font), (badgeY : ℚ) + 15)
    b.text font ⟨255, 255, 255, none⟩

/-- The badge loop: `for badge in badges`. -/
def drawBadges (lib : Lib) (font : Font) (c : Canvas) : Canvas :=
  badges.foldl (drawBadge lib font) c

/-- The whole drawing pipeline, from canvas creation to the last badge. -/
def buildImage (lib : Lib) (loads : String → ℕ → Bool) : Canvas :=
  let fonts := resolveFonts loads
  let c := blank width height
  let c := gradientFill c
  let c := dotOverlay lib c
  let c := drawIcon lib c
  let c := drawTitle lib fonts.title c
  let c := drawTagline lib fonts.tagline c
  drawBadges lib fonts.badge c

/-! ### Saving and observable behavior (lines 106-109) -/

/-- `output_path` (line 107). -/
def outputPath : String :=
  "/Users/vinnycarpenter/Projects/kanban-todos/public/images/og-image.png"

/-- The success message of line 109. -/
def successMsg : String := "OG image generated successfully at " ++ outputPath

/-- An error raised by `image.save` (unwritable path, missing directory, ...). -/
structure SaveErr where
  msg : String
deriving DecidableEq, Repr

/-- An observable event of a run: the file save, or a printed message. -/
inductive Event where
  | saved (path : String) (img : Canvas)
  | printed (msg : String)

/-- The whole script as a function of the environment: the imaging library
behavior `lib`, which font files load (`loads`), and the outcome the
filesystem gives the save (`saveResult`).  No handler guards the save, so an
error from it propagates; the success message is printed only after a
successful save. -/
def runScript (lib : Lib) (loads : String → ℕ → Bool)
    (saveResult : Except SaveErr Unit) : Except SaveErr (List Event) :=
  let img := buildImage lib loads
  match saveResult with
  | .error e => .error e
  | .ok _ => .ok [.saved outputPath img, .printed successMsg]

/-- A concrete imaging-library behavior, used to instantiate theorems that
quantify over the library: it rasterizes nothing and measures every text as
empty. -/
def trivLib : Lib :=
  ⟨fun _ _ _ _ _ _ => false, fun _ _ _ _ _ _ _ => false,
   fun _ _ _ _ _ => false, fun _ _ => ⟨0, 0, 0, 0⟩⟩

/-! ### Helper lemmas -/

theorem setIf_w (c : Canvas) (cond : ℕ → ℕ → Bool) (col : Color) :
    (setIf c cond col).w = c.w := rfl

theorem setIf_h (c : Canvas) (cond : ℕ → ℕ → Bool) (col : Color) :
    (setIf c cond col).h = c.h := rfl

theorem setIf_pix (c : Canvas) (cond : ℕ → ℕ → Bool) (col : Color) (x y : ℕ) :
    (setIf c cond col).pix x y = col ∨ (setIf c cond col).pix x y = c.pix x y := by
  simp only [setIf]
  split
  · exact Or.inl rfl
  · exact Or.inr rfl

theorem foldl_dims {α : Type} (F : Canvas → α → Canvas)
    (hw : ∀ c a, (F c a).w = c.w) (hh : ∀ c a, (F c a).h = c.h) :
    ∀ (l : List α) (c : Canvas), (l.foldl F c).w = c.w ∧ (l.foldl F c).h = c.h := by
  intro l
  induction l with
  | nil => intro c; exact ⟨rfl, rfl⟩
  | cons a l ih =>
    intro c
    simp only [List.foldl_cons]
    exact ⟨(ih (F c a)).1.trans (hw c a), (ih (F c a)).2.trans (hh c a)⟩

theorem setIf_pix_chain (c d : Canvas) (cond : ℕ → ℕ → Bool) (col : Color) (x y : ℕ)
    (h : d.pix x y = col ∨ d.pix x y = c.pix x y) :
    (setIf d cond col).pix x y = col ∨ (setIf d cond col).pix x y = c.pix x y := by
  rcases setIf_pix d cond col x y with h2 | h2
  · exact Or.inl h2
  · rw [h2]; exact h

theorem foldl_pix_or {α : Type} (F : Canvas → α → Canvas) (col : Color)
    (hF : ∀ c a x y, (F c a).pix x y = col ∨ (F c a).pix x y = c.pix x y) :
    ∀ (l : List α) (c : Canvas) (x y : ℕ),
      (l.foldl F c).pix x y = col ∨ (l.foldl F c).pix x y = c.pix x y := by
  intro l
  induction l with
  | nil => intro c x y; exact Or.inr rfl
  | cons a l ih =>
    intro c x y
    simp only [List.foldl_cons]
    rcases ih (F c a) x y with h | h
    · exact Or.inl h
    · rcases hF c a x y with h2 | h2
      · exact Or.inl (h.trans h2)
      · exact Or.inr (h.trans h2)

theorem gradRows_dims (n : ℕ) (c : Canvas) :
    ((List.range n).foldl gradStep c).w = c.w ∧ ((List.range n).foldl gradStep c).h = c.h :=
  foldl_dims gradStep (fun _ _ => rfl) (fun _ _ => rfl) _ c

theorem gradRows_pix (n : ℕ) (c : Canvas) (x y : ℕ) :
    ((List.range n).foldl gradStep c).pix x y =
      if y < n ∧ x ≤ width ∧ x < c.w ∧ y < c.h then gradColor y else c.pix x y := by
  induction n with
  | zero => simp
  | succ n ih =>
    rw [List.range_succ, List.foldl_append]
    simp only [List.foldl_cons, List.foldl_nil]
    have hw := (gradRows_dims n c).1
    have hh := (gradRows_dims n c).2
    simp only [gradStep, drawHLine, setIf, hw, hh, ih]
    by_cases hyn : y = n
    · subst hyn
      by_cases hx : x ≤ width ∧ x < c.w ∧ y < c.h
      · simp [hx, hx.1, hx.2.1, hx.2.2, Nat.lt_succ_self]
      · push_neg at hx
        by_cases hx1 : x ≤ width
        · by_cases hx2 : x < c.w
          · have hy2 : ¬ y < c.h := fun h => absurd h (by simpa [hx1, hx2] using hx)
            simp [hx1, hx2, hy2, lt_irrefl]
          · simp [hx2, lt_irrefl]
        · simp [hx1, lt_irrefl]
    · have : (y < n + 1 ∧ x ≤ width ∧ x < c.w ∧ y < c.h) ↔
          (y < n ∧ x ≤ width ∧ x < c.w ∧ y < c.h) := by
        constructor
        · rintro ⟨h1, h2⟩; exact ⟨by omega, h2⟩
        · rintro ⟨h1, h2⟩; exact ⟨by omega, h2⟩
      simp [hyn, this]

theorem gradientFill_w (c : Canvas) : (gradientFill c).w = c.w :=
  (gradRows_dims height c).1

theorem gradientFill_h (c : Canvas) : (gradientFill c).h = c.h :=
  (gradRows_dims height c).2

theorem dotOverlay_w (lib : Lib) (c : Canvas) : (dotOverlay lib c).w = c.w := by
  unfold dotOverlay
  exact (foldl_dims _
    (fun c x => (foldl_dims (fun c y =>
      drawEllipse lib c (x - 1) (y - 1) (x + 1) (y + 1) ⟨255, 255, 255, some 13⟩)
      (fun _ _ => rfl) (fun _ _ => rfl) _ c).1)
    (fun c x => (foldl_dims (fun c y =>
      drawEllipse lib c (x - 1) (y - 1) (x + 1) (y + 1) ⟨255, 255, 255, some 13⟩)
      (fun _ _ => rfl) (fun _ _ => rfl) _ c).2) _ c).1

theorem dotOverlay_h (lib : Lib) (c : Canvas) : (dotOverlay lib c).h = c.h := by
  unfold dotOverlay
  exact (foldl_dims _
    (fun c x => (foldl_dims (fun c y =>
      drawEllipse lib c (x - 1) (y - 1) (x + 1) (y + 1) ⟨255, 255, 255, some 13⟩)
      (fun _ _ => rfl) (fun _ _ => rfl) _ c).1)
    (fun c x => (foldl_dims (fun c y =>
      drawEllipse lib c (x - 1) (y - 1) (x + 1) (y + 1) ⟨255, 255, 255, some 13⟩)
      (fun _ _ => rfl) (fun _ _ => rfl) _ c).2) _ c).2

theorem drawIcon_w (lib : Lib) (c : Canvas) : (drawIcon lib c).w = c.w := rfl

theorem drawIcon_h (lib : Lib) (c : Canvas) : (drawIcon lib c).h = c.h := rfl

theorem drawTitle_w (lib : Lib) (f : Font) (c : Canvas) : (drawTitle lib f c).w = c.w := rfl

theorem drawTitle_h (lib : Lib) (f : Font) (c : Canvas) : (drawTitle lib f c).h = c.h := rfl

theorem drawTagline_w (lib : Lib) (f : Font) (c : Canvas) : (drawTagline lib f c).w = c.w := rfl

theorem drawTagline_h (lib : Lib) (f : Font) (c : Canvas) : (drawTagline lib f c).h = c.h := rfl

theorem drawBadges_w (lib : Lib) (f : Font) (c : Canvas) : (drawBadges lib f c).w = c.w :=
  (foldl_dims (drawBadge lib f) (fun _ _ => rfl) (fun _ _ => rfl) badges c).1

theorem drawBadges_h (lib : Lib) (f : Font) (c : Canvas) : (drawBadges lib f c).h = c.h :=
  (foldl_dims (drawBadge lib f) (fun _ _ => rfl) (fun _ _ => rfl) badges c).2

theorem buildImage_dims (lib : Lib) (loads : String → ℕ → Bool) :
    (buildImage lib loads).w = width ∧ (buildImage lib loads).h = height := by
  unfold buildImage
  rw [drawBadges_w, drawBadges_h, drawTagline_w, drawTagline_h, drawTitle_w, drawTitle_h,
    drawIcon_w, drawIcon_h, dotOverlay_w, dotOverlay_h, gradientFill_w, gradientFill_h]
  exact ⟨rfl, rfl⟩

theorem gradR_eq (y : ℕ) : gradR y = (87570 - 30 * (y : ℤ)) / 630 := by
  rw [gradR]
  have h : (139 : ℚ) + (109 - 139) * y / (height : ℚ) =
      ((87570 - 30 * (y : ℤ) : ℤ) : ℚ) / ((630 : ℕ) : ℚ) := by
    norm_num [height]
    field_simp
    ring
  rw [h, Rat.floor_intCast_div_natCast]
  norm_num

theorem gradG_eq (y : ℕ) : gradG y = (57960 - 52 * (y : ℤ)) / 630 := by
  rw [gradG]
  have h : (92 : ℚ) + (40 - 92) * y / (height : ℚ) =
      ((57960 - 52 * (y : ℤ) : ℤ) : ℚ) / ((630 : ℕ) : ℚ) := by
    norm_num [height]
    field_simp
    ring
  rw [h, Rat.floor_intCast_div_natCast]
  norm_num

theorem gradB_eq (y : ℕ) : gradB y = (154980 - 29 * (y : ℤ)) / 630 := by
  rw [gradB]
  have h : (246 : ℚ) + (217 - 246) * y / (height : ℚ) =
      ((154980 - 29 * (y : ℤ) : ℤ) : ℚ) / ((630 : ℕ) : ℚ) := by
    norm_num [height]
    field_simp
    ring
  rw [h, Rat.floor_intCast_div_natCast]
  norm_num

/-! ### The claims -/

/-- C1: in the gradient fill, the color computed for row `y = 0` is exactly
the start color `(139, 92, 246)`, and the color computed for row
`y = height - 1 = 629` is within rounding tolerance of the end color
`(109, 40, 217)` — in fact it equals it exactly — where each channel is
`int(start + (end - start) * y / 630)`. -/
theorem gradient_endpoint_colors :
    gradColor 0 = ⟨139, 92, 246⟩ ∧ gradColor 629 = ⟨109, 40, 217⟩ := by
  rw [gradColor, gradColor, gradR_eq, gradG_eq, gradB_eq, gradR_eq, gradG_eq, gradB_eq]
  norm_num

/-- C2: for every `y` in `[0, 630)`, each channel of the interpolated gradient
color lies between the corresponding channels of the endpoints
`(139, 92, 246)` and `(109, 40, 217)` inclusive, and each channel is
monotonically non-increasing as `y` increases (no overshoot). -/
theorem gradient_channels_bounded_monotone :
    (∀ y : ℕ, y < height →
      109 ≤ gradR y ∧ gradR y ≤ 139 ∧ 40 ≤ gradG y ∧ gradG y ≤ 92 ∧
        217 ≤ gradB y ∧ gradB y ≤ 246) ∧
    (∀ y1 y2 : ℕ, y1 ≤ y2 →
      gradR y2 ≤ gradR y1 ∧ gradG y2 ≤ gradG y1 ∧ gradB y2 ≤ gradB y1) := by
  constructor
  · intro y hy
    rw [height] at hy
    rw [gradR_eq, gradG_eq, gradB_eq]
    omega
  · intro y1 y2 h
    rw [gradR_eq, gradR_eq, gradG_eq, gradG_eq, gradB_eq, gradB_eq]
    omega

/-- Witness for C2: the bounds at `y = 0` and the monotone step from `y = 0`
to `y = 1`, obtained from the theorem at concrete inputs. -/
theorem gradient_channels_bounded_monotone_spot :
    (0 < height ∧
      (109 ≤ gradR 0 ∧ gradR 0 ≤ 139 ∧ 40 ≤ gradG 0 ∧ gradG 0 ≤ 92 ∧
        217 ≤ gradB 0 ∧ gradB 0 ≤ 246)) ∧
    (gradR 1 ≤ gradR 0 ∧ gradG 1 ≤ gradG 0 ∧ gradB 1 ≤ gradB 0) :=
  ⟨⟨by decide, gradient_channels_bounded_monotone.1 0 (by decide)⟩,
   gradient_channels_bounded_monotone.2 0 1 (by decide)⟩

/-- C3: the dimensions of the canvas, and hence of the output image, are
exactly 1200 by 630 after every drawing operation (every operation is a
`setIf`, which preserves both dimensions) and at save time, for every
library behavior and every font-resolution outcome. -/
theorem canvas_dims_constant :
    (∀ (c : Canvas) (cond : ℕ → ℕ → Bool) (col : Color),
      (setIf c cond col).w = c.w ∧ (setIf c cond col).h = c.h) ∧
    (∀ (lib : Lib) (loads : String → ℕ → Bool),
      (buildImage lib loads).w = 1200 ∧ (buildImage lib loads).h = 630) :=
  ⟨fun _ _ _ => ⟨rfl, rfl⟩, fun lib loads => buildImage_dims lib loads⟩

/-- C4: the title x-offset satisfies `offset + text_width/2 = canvas_width/2`
where `text_width` is the measured bounding-box width, and likewise the
tagline; each badge label's x-offset centers its measured width in the
140-pixel-wide badge rectangle `[badge.x, badge.x + 140]`. -/
theorem text_centering :
    (∀ (lib : Lib) (font : Font),
      titleX (textWidthOf lib titleText font) + textWidthOf lib titleText font / 2 =
        (width : ℚ) / 2) ∧
    (∀ (lib : Lib) (font : Font),
      taglineX (textWidthOf lib taglineText font) + textWidthOf lib taglineText font / 2 =
        (width : ℚ) / 2) ∧
    (∀ (lib : Lib) (font : Font) (b : Badge),
      badgeTextX b.x (textWidthOf lib b.text font) + textWidthOf lib b.text font / 2 =
        ((b.x : ℚ) + ((b.x : ℚ) + 140)) / 2) := by
  refine ⟨fun lib font => ?_, fun lib font => ?_, fun lib font b => ?_⟩
  · rw [titleX]; ring
  · rw [taglineX]; ring
  · rw [badgeTextX]; ring

/-- C5: font resolution tries the primary paths first, on any load failure
tries the secondary paths, on failure of those uses the built-in default
font; and font-loading failure is never fatal: when no font file loads at
all, the script still runs to completion and saves the image using the
default font. -/
theorem font_fallback_and_completion :
    (∀ loads, primTierLoads loads = true → resolveFonts loads = primaryFonts) ∧
    (∀ loads, primTierLoads loads = false → secTierLoads loads = true →
      resolveFonts loads = secondaryFonts) ∧
    (∀ loads, primTierLoads loads = false → secTierLoads loads = false →
      resolveFonts loads = defaultFonts) ∧
    resolveFonts (fun _ _ => false) = defaultFonts ∧
    (∀ lib : Lib, runScript lib (fun _ _ => false) (Except.ok ()) =
      Except.ok [Event.saved outputPath (buildImage lib (fun _ _ => false)),
        Event.printed successMsg]) := by
  refine ⟨fun loads h => ?_, fun loads h1 h2 => ?_, fun loads h1 h2 => ?_, rfl, fun lib => rfl⟩
  · simp [resolveFonts, h]
  · simp [resolveFonts, h1, h2]
  · simp [resolveFonts, h1, h2]

/-- Witness for C5: all tiers exercised at concrete `loads` functions,
obtained from the theorem. -/
theorem font_fallback_and_completion_spot :
    (primTierLoads (fun _ _ => true) = true ∧
      resolveFonts (fun _ _ => true) = primaryFonts) ∧
    (primTierLoads (fun _ _ => false) = false ∧ secTierLoads (fun _ _ => false) = false ∧
      resolveFonts (fun _ _ => false) = defaultFonts) :=
  ⟨⟨rfl, font_fallback_and_completion.1 (fun _ _ => true) rfl⟩,
   ⟨rfl, rfl, font_fallback_and_completion.2.2.1 (fun _ _ => false) rfl rfl⟩⟩

/-- C6: the program is deterministic.  The embedding makes every input of the
script explicit — the imaging-library behavior, which font files load, and
the filesystem's answer to the save; nothing else (no randomness, no other
environment) enters, so two executions under identical conditions produce
identical canvas contents and identical observable events. -/
theorem run_deterministic (libA libB : Lib) (loadsA loadsB : String → ℕ → Bool)
    (sA sB : Except SaveErr Unit) (hlib : libA = libB) (hloads : loadsA = loadsB)
    (hs : sA = sB) : runScript libA loadsA sA = runScript libB loadsB sB := by
  rw [hlib, hloads, hs]

/-- Witness for C6: two runs under the concrete trivial environment agree. -/
theorem run_deterministic_spot :
    runScript trivLib (fun _ _ => false) (Except.ok ()) =
      runScript trivLib (fun _ _ => false) (Except.ok ()) :=
  run_deterministic trivLib trivLib (fun _ _ => false) (fun _ _ => false)
    (Except.ok ()) (Except.ok ()) rfl rfl rfl

/-- C7: the font-loading fallback is the only caught failure path: for every
font outcome the run reaches the save; an error from the save propagates
unhandled (the run's result is that error and nothing is printed), and on a
successful save the success message is printed after the save event. -/
theorem save_error_propagates :
    (∀ (lib : Lib) (loads : String → ℕ → Bool) (e : SaveErr),
      runScript lib loads (Except.error e) = Except.error e) ∧
    (∀ (lib : Lib) (loads : String → ℕ → Bool),
      runScript lib loads (Except.ok ()) =
        Except.ok [Event.saved outputPath (buildImage lib loads),
          Event.printed successMsg]) :=
  ⟨fun _ _ _ => rfl, fun _ _ => rfl⟩

/-- C8: the three resolved font handles always come from the same fallback
tier — the resolved triple is one of the three homogeneous triples, never a
mixture, because a load failure of any font of a tier discards that whole
tier. -/
theorem fonts_homogeneous_tier :
    ∀ loads : String → ℕ → Bool,
      (resolveFonts loads = primaryFonts ∨ resolveFonts loads = secondaryFonts ∨
        resolveFonts loads = defaultFonts) ∧
      (resolveFonts loads).title.tier = (resolveFonts loads).tagline.tier ∧
      (resolveFonts loads).tagline.tier = (resolveFonts loads).badge.tier := by
  intro loads
  unfold resolveFonts
  split_ifs with h1 h2 <;>
    simp [primaryFonts, secondaryFonts, defaultFonts]

/-- C9: because the canvas is RGB, the fourth (alpha) component of every
4-tuple fill is ignored — each drawing operation with fill `(r, g, b, a)`
equals the same operation with no alpha — and the touched pixels are drawn
fully opaque: after the dot overlay, the icon, or the tagline, every pixel
either is unchanged or equals the plain RGB fill `(255, 255, 255)`; no
blending with the underlying gradient occurs. -/
theorem rgb_mode_ignores_alpha :
    (∀ (lib : Lib) (c : Canvas) (x0 y0 x1 y1 : ℤ) (r g b : ℤ) (a : Option ℤ),
      drawEllipse lib c x0 y0 x1 y1 ⟨r, g, b, a⟩ =
        drawEllipse lib c x0 y0 x1 y1 ⟨r, g, b, none⟩) ∧
    (∀ (lib : Lib) (c : Canvas) (x0 y0 x1 y1 rad : ℤ) (r g b : ℤ) (a : Option ℤ),
      drawRRect lib c x0 y0 x1 y1 rad ⟨r, g, b, a⟩ =
        drawRRect lib c x0 y0 x1 y1 rad ⟨r, g, b, none⟩) ∧
    (∀ (lib : Lib) (c : Canvas) (pos : ℚ × ℚ) (t : String) (font : Font)
      (r g b : ℤ) (a : Option ℤ),
      drawTextOp lib c pos t font ⟨r, g, b, a⟩ =
        drawTextOp lib c pos t font ⟨r, g, b, none⟩) ∧
    (∀ (lib : Lib) (c : Canvas) (x y : ℕ),
      (dotOverlay lib c).pix x y = ⟨255, 255, 255⟩ ∨
        (dotOverlay lib c).pix x y = c.pix x y) ∧
    (∀ (lib : Lib) (c : Canvas) (x y : ℕ),
      (drawIcon lib c).pix x y = ⟨255, 255, 255⟩ ∨
        (drawIcon lib c).pix x y = c.pix x y) ∧
    (∀ (lib : Lib) (font : Font) (c : Canvas) (x y : ℕ),
      (drawTagline lib font c).pix x y = ⟨255, 255, 255⟩ ∨
        (drawTagline lib font c).pix x y = c.pix x y) := by
  refine ⟨fun _ _ _ _ _ _ _ _ _ _ => rfl, fun _ _ _ _ _ _ _ _ _ _ _ => rfl,
    fun _ _ _ _ _ _ _ _ _ => rfl, fun lib c x y => ?_, fun lib c x y => ?_,
    fun lib font c x y => ?_⟩
  · unfold dotOverlay
    refine foldl_pix_or _ ⟨255, 255, 255⟩ (fun d a u v => ?_) _ c x y
    exact foldl_pix_or _ ⟨255, 255, 255⟩
      (fun e a2 u2 v2 => setIf_pix e _ _ u2 v2) _ d u v
  · exact setIf_pix_chain c _ _ _ x y (setIf_pix_chain c _ _ _ x y
      (setIf_pix_chain c _ _ _ x y (setIf_pix c _ _ x y)))
  · exact setIf_pix c _ _ x y

/-- C10: every gradient row is drawn from `(0, y)` to `(width, y)`; the right
endpoint `x = 1200` lies outside the canvas and its write is clipped, no
out-of-bounds pixel is ever written (outside `[0, 1200) x [0, 630)` the
buffer is unchanged), and every in-bounds pixel of each row receives that
row's interpolated color. -/
theorem gradient_rows_cover_clip :
    (∀ (c : Canvas) (y : ℕ), (gradStep c y).pix c.w y = c.pix c.w y) ∧
    (∀ x y : ℕ, x < width → y < height →
      (gradientFill (blank width height)).pix x y = gradColor y) ∧
    (∀ x y : ℕ, width ≤ x ∨ height ≤ y →
      (gradientFill (blank width height)).pix x y = (blank width height).pix x y) := by
  refine ⟨fun c y => ?_, fun x y hx hy => ?_, fun x y h => ?_⟩
  · simp [gradStep, drawHLine, setIf]
  · rw [gradientFill, gradRows_pix]
    have hc : x < (blank width height).w := hx
    have hc2 : y < (blank width height).h := hy
    rw [if_pos ⟨hy, hx.le, hc, hc2⟩]
  · rw [gradientFill, gradRows_pix]
    rw [if_neg]
    rintro ⟨h1, h2, h3, h4⟩
    have h3w : x < width := h3
    have h4h : y < height := h4
    omega

/-- Witness for C10: the clipped write at the row's right endpoint, the
painted pixel `(0, 0)`, and the untouched out-of-bounds column `x = width`,
from the theorem at concrete inputs. -/
theorem gradient_rows_cover_clip_spot :
    (0 < width ∧ 0 < height ∧
      (gradientFill (blank width height)).pix 0 0 = gradColor 0) ∧
    (gradientFill (blank width height)).pix width 0 = (blank width height).pix width 0 :=
  ⟨⟨by decide, by decide, gradient_rows_cover_clip.2.1 0 0 (by decide) (by decide)⟩,
   gradient_rows_cover_clip.2.2 width 0 (Or.inl le_rfl)⟩

end OG
